import Mathlib

/-!
Verification of the combat-resolution core of the COMT combat game
(`combatgame/characters.py`, `combatgame/skills.py`,
`combatgame/game_manager.py`, `combatgame/enemies.py`).

The Python code is shallowly embedded: each mutable character object
becomes a `CharState` record, mutation becomes explicit state passing,
and every `random.*` call site becomes an explicit parameter carrying
the value that call would have produced.  Machine integers of the game
are unbounded Python `int`s, so they are modelled by `Int`.
-/

namespace CombatGame

/-- Active status effects from using skills (`SkillEffects.Invincible`
and `SkillEffects.ReflectiveShield` in `skills.py`).  Each carries its
mutable `use_count`. -/
inductive Effect where
  | invincible (use_count : Int)
  | reflectiveShield (use_count : Int)
  deriving DecidableEq, Repr

/-- A catalog row of `job_class_attributes.csv`, as read by
`BaseCharacter._assign_job_class_attributes`: the class base stats
HP, DP, AP, SP, MP and Luck. -/
structure JobAttr where
  HP : Int
  DP : Int
  AP : Int
  SP : Int
  MP : Int
  Luck : Int
  deriving DecidableEq, Repr

/-- A skill's static attributes used by `BaseCharacter.use_skill` and
`BaseCharacter.check_skill_cost` (`BaseSkill` in `skills.py`). -/
structure Skill where
  magic_points_cost : Int
  speed_points_cost : Int
  require_target : Bool
  deriving DecidableEq, Repr

/-- The mutable state of a `BaseCharacter` (and of the
`EnemyCharacter` subclass).  `has_effects` models whether the object
still has an `active_effects` attribute (`EnemyCharacter.__init__`
deletes it, and `get_active_effect` guards with `hasattr`);
`is_enemy` models `isinstance(·, EnemyCharacter)`. -/
structure CharState where
  name : String
  health_points : Int
  attack_points : Int
  defense_points : Int
  speed_points : Int
  magic_points : Int
  luck : Int
  job_class : String
  max_health_points : Int
  max_defense_points : Int
  skills : List Skill
  active_effects : List Effect
  has_effects : Bool
  is_enemy : Bool
  deriving DecidableEq, Repr

/-- `BaseCharacter._assign_job_class_attributes`: overwrite the job
class and all catalog-driven stats, then set current HP/DP to the max
values.  `attr` is the row `job_class_attributes[job_class_name]`. -/
def assign_job_class_attributes (c : CharState) (job_class_name : String)
    (attr : JobAttr) : CharState :=
  { c with
    job_class := job_class_name
    max_health_points := attr.HP
    max_defense_points := attr.DP
    attack_points := attr.AP
    speed_points := attr.SP
    magic_points := attr.MP
    luck := attr.Luck
    health_points := attr.HP
    defense_points := attr.DP }

/-- `BaseCharacter.restore_stats`: re-reads the catalog entry for the
character's own job class.  The catalog dictionary
`job_class_attributes` is passed in as a lookup function. -/
def restore_stats (catalog : String → JobAttr) (c : CharState) : CharState :=
  assign_job_class_attributes c c.job_class (catalog c.job_class)

/-- Whether an effect object is an instance of `SkillEffects.Invincible`. -/
def Effect.isInvincible : Effect → Bool
  | .invincible _ => true
  | .reflectiveShield _ => false

/-- Whether an effect object is an instance of `SkillEffects.ReflectiveShield`. -/
def Effect.isReflective : Effect → Bool
  | .invincible _ => false
  | .reflectiveShield _ => true

/-- `BaseCharacter.get_active_effect`: the first effect in
`active_effects` matching the requested class, or `none`; characters
without an `active_effects` attribute (enemies) always yield `none`. -/
def get_active_effect (c : CharState) (kind : Effect → Bool) : Option Effect :=
  if c.has_effects then c.active_effects.find? kind else none

/-- Mutating the first effect matching `kind`: its `use_count` is
decremented in place, and `list.remove(effect)` drops it from the
list when `shouldRemove` holds of the decremented count (`<= 0` for
Invincible, `== 0` for ReflectiveShield in `basic_attack`). -/
def decrementFirst (kind : Effect → Bool) (shouldRemove : Int → Bool) :
    List Effect → List Effect
  | [] => []
  | e :: rest =>
    if kind e then
      match e with
      | .invincible n =>
        if shouldRemove (n - 1) then rest else .invincible (n - 1) :: rest
      | .reflectiveShield n =>
        if shouldRemove (n - 1) then rest else .reflectiveShield (n - 1) :: rest
    else
      e :: decrementFirst kind shouldRemove rest

/-- The battle log line returned by `basic_attack` /
`ReflectiveShield.take_effect`, abstracted to the branch taken and the
numbers interpolated into the message. -/
inductive Log where
  | rejected
  | reflected (dp_loss hp_loss : Int)
  | critical (damage : Int)
  | attacked (damage : Int)
  | blockedByDefense
  deriving DecidableEq, Repr

/-- `SkillEffects.ReflectiveShield.take_effect`: split `damage` into a
defense-points loss and a health-points loss and deal both to the
attacker.  Returns the attacker's new state and the two losses. -/
def take_effect (attacker : CharState) (damage : Int) :
    CharState × Int × Int :=
  let defense_points_damage := min damage attacker.defense_points
  let health_points_damage := max 0 (damage - attacker.defense_points)
  ({ attacker with
      defense_points := attacker.defense_points - defense_points_damage
      health_points := attacker.health_points - health_points_damage },
   defense_points_damage, health_points_damage)

/-- `BaseCharacter.basic_attack`.  `roll` is the value produced by the
`random.randint(1, 100)` critical-hit roll (a critical hit happens
when `roll <= self.luck`).  Returns the attacker's new state, the
target's new state and the log line. -/
def basic_attack (attacker target : CharState) (roll : Int) :
    CharState × CharState × Log :=
  let attacker := { attacker with speed_points := attacker.speed_points - 1 }
  match get_active_effect target Effect.isInvincible with
  | some _ =>
    let target := { target with
      active_effects :=
        decrementFirst Effect.isInvincible (fun n => n ≤ 0) target.active_effects }
    (attacker, target, .rejected)
  | none =>
    match get_active_effect target Effect.isReflective with
    | some _ =>
      let (attacker, dp_loss, hp_loss) := take_effect attacker attacker.attack_points
      let target := { target with
        active_effects :=
          decrementFirst Effect.isReflective (fun n => n = 0) target.active_effects }
      (attacker, target, .reflected dp_loss hp_loss)
    | none =>
      if roll ≤ attacker.luck then
        let total_damage := 2 * attacker.attack_points
        let target := { target with
          health_points := target.health_points - total_damage
          defense_points := target.defense_points - 1 }
        (attacker, target, .critical total_damage)
      else
        let total_damage := max (attacker.attack_points - target.defense_points) 0
        let log : Log :=
          if total_damage = 0 then .blockedByDefense else .attacked total_damage
        let target := { target with
          health_points := target.health_points - total_damage
          defense_points := target.defense_points - 1 }
        (attacker, target, log)

/-- `BaseCharacter.check_skill_cost`: speed points are checked before
magic points, and the first failing check is reported. -/
def check_skill_cost (c : CharState) (skill : Skill) : Bool × String :=
  if c.speed_points < skill.speed_points_cost then
    (false, "Not enough speed points.")
  else if c.magic_points < skill.magic_points_cost then
    (false, "Not enough magic points.")
  else
    (true, "")

/-- How a `use_skill` call returns.  `dispatched` marks the point
where control passes to `skill.use` (the polymorphic skill body) with
the costs already deducted; `indexError` is the uncaught Python
`IndexError` raised by `self.skills[skill_index]` when a negative
index reaches below the start of the list. -/
inductive UseSkillResult where
  | outOfRange
  | indexError
  | costFailure (log : String)
  | missingTarget
  | dispatched (withTarget : Bool)
  deriving DecidableEq, Repr

/-- Python list subscription `l[i]` for possibly negative `i`:
indices in `[-len, -1]` count from the end, anything else out of
range is an `IndexError` (`none`). -/
def pyGet (l : List Skill) (i : Int) : Option Skill :=
  if 0 ≤ i then l.get? i.toNat
  else
    let j : Int := (l.length : Int) + i
    if j < 0 then none else l.get? j.toNat

/-- `BaseCharacter.use_skill`.  `target_given` models the truthiness
of the `target` argument.  Returns the caster's new state and the
outcome; per the source, the out-of-range guard only tests
`skill_index >= len(self.skills)`, and the speed/magic costs are
deducted before the `require_target` check. -/
def use_skill (c : CharState) (skill_index : Int) (target_given : Bool) :
    CharState × UseSkillResult :=
  if (c.skills.length : Int) ≤ skill_index then
    (c, .outOfRange)
  else
    match pyGet c.skills skill_index with
    | none => (c, .indexError)
    | some skill =>
      let availability := check_skill_cost c skill
      if !availability.1 then
        (c, .costFailure availability.2)
      else
        let c := { c with
          speed_points := c.speed_points - skill.speed_points_cost
          magic_points := c.magic_points - skill.magic_points_cost }
        if target_given then (c, .dispatched true)
        else if skill.require_target then (c, .missingTarget)
        else (c, .dispatched false)

/-- `BaseCharacter.is_alive`: health points strictly positive. -/
def is_alive (c : CharState) : Bool :=
  c.health_points > 0

/-- `GameManager.update_idle_character_stats`: +1 speed, clamp defense
to at least 0, and +1 magic unless the idle character is an
`EnemyCharacter`. -/
def update_idle_character_stats (idle_character : CharState) : CharState :=
  let idle_character := { idle_character with
    speed_points := idle_character.speed_points + 1 }
  let idle_character := { idle_character with
    defense_points := max idle_character.defense_points 0 }
  if idle_character.is_enemy then idle_character
  else { idle_character with magic_points := idle_character.magic_points + 1 }

/-- The sort key `(entity.speed_points, random.random())` built by
`GameManager.determine_turn_order`, compared as a Python tuple; the
float tie-breaker is modelled as an integer-valued stream sample. -/
def turnKeyLt (a b : Int × Int) : Bool :=
  a.1 < b.1 || (a.1 = b.1 && a.2 < b.2)

/-- `GameManager.determine_turn_order`: a stable descending sort of
`[active_enemy_character, active_player_character]` by the key
`(speed_points, random.random())`, returning the first element.  For
a two-element list this is the player iff the player's key strictly
exceeds the enemy's key, else the enemy (stability keeps the enemy
first on equal keys).  `re` and `rp` are the two `random.random()`
samples drawn while evaluating the keys. -/
def determine_turn_order (active_enemy_character active_player_character : CharState)
    (re rp : Int) : CharState :=
  if turnKeyLt (active_enemy_character.speed_points, re)
      (active_player_character.speed_points, rp) then
    active_player_character
  else
    active_enemy_character

/-- The two rosters held by `GameManager` (`player_characters` and
`enemies`). -/
structure GameState where
  player_characters : List CharState
  enemies : List CharState
  deriving Repr

/-- `GameManager.is_game_over`: true when no player character is
alive or no enemy is alive. -/
def is_game_over (g : GameState) : Bool :=
  !(g.player_characters.any is_alive) || !(g.enemies.any is_alive)

/-- `GameManager.player_won`: `False` when the game is not over,
otherwise some player character alive and no enemy alive. -/
def player_won (g : GameState) : Bool :=
  if !(is_game_over g) then false
  else g.player_characters.any is_alive && !(g.enemies.any is_alive)

/-! Concrete character states used to instantiate the theorems. -/

/-- A plain player-side character with no effects and no skills. -/
def baseChar : CharState :=
  { name := "cat"
    health_points := 20
    attack_points := 10
    defense_points := 3
    speed_points := 5
    magic_points := 5
    luck := 0
    job_class := "Tank"
    max_health_points := 20
    max_defense_points := 3
    skills := []
    active_effects := []
    has_effects := true
    is_enemy := false }

/-- A fixed catalog used to instantiate `restore_stats`. -/
def exampleCatalog : String → JobAttr :=
  fun _ => { HP := 30, DP := 10, AP := 8, SP := 5, MP := 6, Luck := 10 }

/-- A character whose current speed, magic and luck differ from the
catalog base values of its job class. -/
def progressedChar : CharState :=
  { baseChar with speed_points := 9, magic_points := 2, luck := 50 }

/-! ### C1: restore_stats -/

/-- C1 (counterexample): `restore_stats` does not keep the pre-call
speed_points, magic_points or luck: on a character whose current
values differ from the catalog base values, all three are
overwritten by the catalog entry. -/
theorem restore_stats_overwrites_progress :
    (restore_stats exampleCatalog progressedChar).speed_points ≠
      progressedChar.speed_points ∧
    (restore_stats exampleCatalog progressedChar).magic_points ≠
      progressedChar.magic_points ∧
    (restore_stats exampleCatalog progressedChar).luck ≠ progressedChar.luck := by
  decide

/-- C1 (amended): for every catalog and every combatant,
`restore_stats` re-reads the catalog entry of the combatant's job
class and resets health and defense to the catalog max values, but it
also resets attack, speed, magic and luck to their catalog base
values (pre-call speed/magic/luck are overwritten, not preserved). -/
theorem restore_stats_resets_all_catalog_stats
    (catalog : String → JobAttr) (c : CharState) :
    (restore_stats catalog c).health_points = (catalog c.job_class).HP ∧
    (restore_stats catalog c).max_health_points = (catalog c.job_class).HP ∧
    (restore_stats catalog c).defense_points = (catalog c.job_class).DP ∧
    (restore_stats catalog c).max_defense_points = (catalog c.job_class).DP ∧
    (restore_stats catalog c).attack_points = (catalog c.job_class).AP ∧
    (restore_stats catalog c).speed_points = (catalog c.job_class).SP ∧
    (restore_stats catalog c).magic_points = (catalog c.job_class).MP ∧
    (restore_stats catalog c).luck = (catalog c.job_class).Luck := by
  simp [restore_stats, assign_job_class_attributes]

/-! ### C6: is_game_over and player_won -/

/-- C6: `is_game_over` is true iff all members of at least one roster
are simultaneously not alive, and `player_won` is true iff the game
is over, at least one player-side combatant is alive and no
enemy-side combatant is alive. -/
theorem game_end_criterion (g : GameState) :
    (is_game_over g = true ↔
      (∀ c ∈ g.player_characters, is_alive c = false) ∨
      (∀ c ∈ g.enemies, is_alive c = false)) ∧
    (player_won g = true ↔
      is_game_over g = true ∧
      (∃ c ∈ g.player_characters, is_alive c = true) ∧
      (∀ c ∈ g.enemies, is_alive c = false)) := by
  constructor
  · simp only [is_game_over, Bool.or_eq_true, Bool.not_eq_true', List.any_eq_false,
      Bool.not_eq_true]
  · by_cases hover : is_game_over g = true
    · simp only [player_won, hover, Bool.not_true, Bool.false_eq_true, if_false,
        Bool.and_eq_true, Bool.not_eq_true', List.any_eq_true, List.any_eq_false,
        Bool.not_eq_true, true_and]
    · simp only [player_won, Bool.not_eq_true] at hover ⊢
      simp [hover]

/-! ### C7: update_idle_character_stats -/

/-- C7: idle regeneration adds exactly 1 speed point, sets defense to
`max(old defense, 0)` (hence nonnegative afterwards), and adds 1
magic point exactly when the idle combatant is not an enemy. -/
theorem idle_regen_spec (c : CharState) :
    (update_idle_character_stats c).speed_points = c.speed_points + 1 ∧
    (update_idle_character_stats c).defense_points = max c.defense_points 0 ∧
    0 ≤ (update_idle_character_stats c).defense_points ∧
    ((update_idle_character_stats c).magic_points = c.magic_points + 1 ↔
      c.is_enemy = false) := by
  unfold update_idle_character_stats
  by_cases h : c.is_enemy <;> simp [h]

/-! ### C8: determine_turn_order -/

/-- C8: whenever the two active combatants have unequal speed points,
`determine_turn_order` returns the combatant with the higher speed,
for every pair of `random.random()` tie-break samples. -/
theorem turn_order_deterministic (e p : CharState) (re rp : Int)
    (hne : e.speed_points ≠ p.speed_points) :
    (e.speed_points < p.speed_points → determine_turn_order e p re rp = p) ∧
    (p.speed_points < e.speed_points → determine_turn_order e p re rp = e) := by
  constructor
  · intro hlt
    have hkey : turnKeyLt (e.speed_points, re) (p.speed_points, rp) = true := by
      simp [turnKeyLt]
      omega
    simp [determine_turn_order, hkey]
  · intro hlt
    have hkey : turnKeyLt (e.speed_points, re) (p.speed_points, rp) = false := by
      simp [turnKeyLt]
      omega
    simp [determine_turn_order, hkey]

/-- C8 (witness): on a concrete pair with enemy speed 5 and player
speed 7, the player is returned. -/
theorem turn_order_deterministic_witness :
    baseChar.speed_points ≠ progressedChar.speed_points ∧
    determine_turn_order baseChar progressedChar 3 0 = progressedChar :=
  ⟨by decide,
    (turn_order_deterministic baseChar progressedChar 3 0 (by decide)).1 (by decide)⟩

/-! ### Shared evaluation lemmas for basic_attack -/

/-- Evaluation of `basic_attack` when the target has no Invincible
and no ReflectiveShield effect: the plain critical/non-critical
damage branch. -/
theorem basic_attack_plain (attacker target : CharState) (roll : Int)
    (hinv : get_active_effect target Effect.isInvincible = none)
    (hrefl : get_active_effect target Effect.isReflective = none) :
    basic_attack attacker target roll =
      ({ attacker with speed_points := attacker.speed_points - 1 },
       { target with
          health_points := target.health_points -
            (if roll ≤ attacker.luck then 2 * attacker.attack_points
             else max (attacker.attack_points - target.defense_points) 0)
          defense_points := target.defense_points - 1 },
       if roll ≤ attacker.luck then Log.critical (2 * attacker.attack_points)
       else if max (attacker.attack_points - target.defense_points) 0 = 0 then
         Log.blockedByDefense
       else Log.attacked (max (attacker.attack_points - target.defense_points) 0)) := by
  unfold basic_attack
  rw [hinv, hrefl]
  by_cases hc : roll ≤ attacker.luck <;> simp [hc]

/-! ### C3: basic_attack with no active effects on the target -/

/-- C3: with no active effect on the target, a basic attack costs the
attacker exactly 1 speed point, always decrements the target's
defense by 1 without clamping, and deals `2 * attack_points` damage
on a successful critical roll (`roll <= luck`) or
`max(attack_points - defense_points, 0)` damage otherwise. -/
theorem basic_attack_no_effects (attacker target : CharState) (roll : Int)
    (hinv : get_active_effect target Effect.isInvincible = none)
    (hrefl : get_active_effect target Effect.isReflective = none) :
    (basic_attack attacker target roll).1.speed_points =
      attacker.speed_points - 1 ∧
    (basic_attack attacker target roll).2.1.defense_points =
      target.defense_points - 1 ∧
    (roll ≤ attacker.luck →
      (basic_attack attacker target roll).2.1.health_points =
        target.health_points - 2 * attacker.attack_points) ∧
    (attacker.luck < roll →
      (basic_attack attacker target roll).2.1.health_points =
        target.health_points -
          max (attacker.attack_points - target.defense_points) 0) := by
  rw [basic_attack_plain attacker target roll hinv hrefl]
  refine ⟨rfl, rfl, ?_, ?_⟩
  · intro h
    simp [h]
  · intro h
    simp only
    rw [if_neg (by omega)]

/-- C3 (witness): a luck-0 attacker with 10 AP rolling 50 against a
3-DP target deals `max(10 - 3, 0) = 7` damage, and the target's
defense drops to 2 while the attacker loses 1 speed point. -/
theorem basic_attack_no_effects_witness :
    get_active_effect baseChar Effect.isInvincible = none ∧
    get_active_effect baseChar Effect.isReflective = none ∧
    baseChar.luck < 50 ∧
    (basic_attack baseChar baseChar 50).1.speed_points =
      baseChar.speed_points - 1 ∧
    (basic_attack baseChar baseChar 50).2.1.health_points =
      baseChar.health_points -
        max (baseChar.attack_points - baseChar.defense_points) 0 :=
  ⟨by decide, by decide, by decide,
    (basic_attack_no_effects baseChar baseChar 50 (by decide) (by decide)).1,
    (basic_attack_no_effects baseChar baseChar 50 (by decide) (by decide)).2.2.2
      (by decide)⟩

/-! ### C4: ReflectiveShield.take_effect conservation -/

/-- A target carrying one ReflectiveShield effect. -/
def shieldedChar : CharState :=
  { baseChar with active_effects := [Effect.reflectiveShield 1] }

/-- C4: `take_effect` splits the incoming damage into
`dp_loss = min(damage, attacker.DP)` and
`hp_loss = max(0, damage - attacker.DP)`, subtracts both from the
attacker, and `dp_loss + hp_loss = damage`; a basic attack into a
ReflectiveShield leaves the shielded target's health and defense
points unchanged. -/
theorem reflective_shield_conservation (attacker target : CharState)
    (damage roll : Int) (e : Effect)
    (hd : 0 ≤ damage)
    (hinv : get_active_effect target Effect.isInvincible = none)
    (hrefl : get_active_effect target Effect.isReflective = some e) :
    ((take_effect attacker damage).2.1 = min damage attacker.defense_points ∧
     (take_effect attacker damage).2.2 =
       max 0 (damage - attacker.defense_points) ∧
     (take_effect attacker damage).1.defense_points =
       attacker.defense_points - min damage attacker.defense_points ∧
     (take_effect attacker damage).1.health_points =
       attacker.health_points - max 0 (damage - attacker.defense_points) ∧
     min damage attacker.defense_points +
       max 0 (damage - attacker.defense_points) = damage) ∧
    ((basic_attack attacker target roll).2.1.health_points =
       target.health_points ∧
     (basic_attack attacker target roll).2.1.defense_points =
       target.defense_points) := by
  constructor
  · refine ⟨rfl, rfl, rfl, rfl, ?_⟩
    omega
  · unfold basic_attack
    rw [hinv, hrefl]
    simp [take_effect]

/-- C4 (witness): damage 7 against an attacker with 3 DP splits as
`3 + 4 = 7`, and an attack into a shielded target leaves the target's
health points untouched. -/
theorem reflective_shield_conservation_witness :
    (0 : Int) ≤ 7 ∧
    get_active_effect shieldedChar Effect.isReflective =
      some (Effect.reflectiveShield 1) ∧
    (basic_attack baseChar shieldedChar 50).2.1.health_points =
      shieldedChar.health_points :=
  ⟨by decide, by decide,
    (reflective_shield_conservation baseChar shieldedChar 7 50
      (Effect.reflectiveShield 1) (by decide) (by decide) (by decide)).2.1⟩

/-! ### C5: Invincible consumption -/

/-- If the first Invincible effect in the list has `use_count = 1`,
the in-place decrement-and-remove performed by `basic_attack` is
exactly the removal of that first Invincible effect. -/
theorem decrementFirst_eraseP (l : List Effect)
    (h : l.find? Effect.isInvincible = some (Effect.invincible 1)) :
    decrementFirst Effect.isInvincible (fun n => n ≤ 0) l =
      l.eraseP Effect.isInvincible := by
  induction l with
  | nil => simp at h
  | cons e rest ih =>
    cases e with
    | invincible n =>
      have hn : n = 1 := by
        rw [List.find?_cons_of_pos _ rfl] at h
        cases h
        rfl
      subst hn
      simp [decrementFirst, List.eraseP_cons, Effect.isInvincible]
    | reflectiveShield n =>
      rw [List.find?_cons_of_neg _ (by simp [Effect.isInvincible])] at h
      simp [decrementFirst, List.eraseP_cons, Effect.isInvincible, ih h]

/-- A target whose active effects are two stacked Invincible effects,
each with `use_count = 1` (reachable by casting IllusionaryAura
twice), and no defense. -/
def doubleInvincibleChar : CharState :=
  { baseChar with
    defense_points := 0
    active_effects := [Effect.invincible 1, Effect.invincible 1] }

/-- C5 (counterexample): against a target holding an Invincible
effect with `use_count = 1` (plus a second stacked Invincible), the
first attack is rejected as claimed, but the second attack is also
rejected rather than processed as a normal attack: the target's
health and defense are still unchanged, although a normal attack
would always decrement defense by 1. -/
theorem invincible_second_attack_cex :
    (basic_attack baseChar doubleInvincibleChar 50).2.2 = Log.rejected ∧
    (basic_attack (basic_attack baseChar doubleInvincibleChar 50).1
        (basic_attack baseChar doubleInvincibleChar 50).2.1 50).2.2 =
      Log.rejected ∧
    (basic_attack (basic_attack baseChar doubleInvincibleChar 50).1
        (basic_attack baseChar doubleInvincibleChar 50).2.1 50).2.1.health_points =
      doubleInvincibleChar.health_points ∧
    (basic_attack (basic_attack baseChar doubleInvincibleChar 50).1
        (basic_attack baseChar doubleInvincibleChar 50).2.1 50).2.1.defense_points =
      doubleInvincibleChar.defense_points := by
  decide

/-- C5 (amended): when the first Invincible effect on the target has
`use_count = 1`, a basic attack leaves the target's health, defense
and all other stats unchanged, removes that effect, and returns the
rejection log; and provided no other Invincible or ReflectiveShield
effect remains on the target, a second basic attack in the resulting
state is processed as a normal attack (defense decremented by 1,
damage by the critical / non-critical formula). -/
theorem invincible_consumption (attacker target : CharState) (roll roll2 : Int)
    (h1 : get_active_effect target Effect.isInvincible =
      some (Effect.invincible 1)) :
    basic_attack attacker target roll =
      ({ attacker with speed_points := attacker.speed_points - 1 },
       { target with active_effects :=
           target.active_effects.eraseP Effect.isInvincible },
       Log.rejected) ∧
    ((target.active_effects.eraseP Effect.isInvincible).find?
        Effect.isInvincible = none →
     (target.active_effects.eraseP Effect.isInvincible).find?
        Effect.isReflective = none →
     (basic_attack { attacker with speed_points := attacker.speed_points - 1 }
        { target with active_effects :=
            target.active_effects.eraseP Effect.isInvincible }
        roll2).2.1.defense_points = target.defense_points - 1 ∧
     (roll2 ≤ attacker.luck →
       (basic_attack { attacker with speed_points := attacker.speed_points - 1 }
          { target with active_effects :=
              target.active_effects.eraseP Effect.isInvincible }
          roll2).2.1.health_points =
         target.health_points - 2 * attacker.attack_points) ∧
     (attacker.luck < roll2 →
       (basic_attack { attacker with speed_points := attacker.speed_points - 1 }
          { target with active_effects :=
              target.active_effects.eraseP Effect.isInvincible }
          roll2).2.1.health_points =
         target.health_points -
           max (attacker.attack_points - target.defense_points) 0)) := by
  have hfind : target.active_effects.find? Effect.isInvincible =
      some (Effect.invincible 1) := by
    by_cases hh : target.has_effects
    · simpa [get_active_effect, hh] using h1
    · simp [get_active_effect, hh] at h1
  constructor
  · unfold basic_attack
    rw [h1, decrementFirst_eraseP _ hfind]
  · intro hinv2 hrefl2
    have hi : get_active_effect
        { target with active_effects :=
            target.active_effects.eraseP Effect.isInvincible }
        Effect.isInvincible = none := by
      unfold get_active_effect
      split <;> simp [hinv2]
    have hr : get_active_effect
        { target with active_effects :=
            target.active_effects.eraseP Effect.isInvincible }
        Effect.isReflective = none := by
      unfold get_active_effect
      split <;> simp [hrefl2]
    rw [basic_attack_plain _ _ roll2 hi hr]
    refine ⟨rfl, ?_, ?_⟩
    · intro h
      simp [h]
    · intro h
      simp only
      rw [if_neg (by omega)]

/-- A target whose only active effect is one Invincible with
`use_count = 1`. -/
def singleInvincibleChar : CharState :=
  { baseChar with
    defense_points := 0
    active_effects := [Effect.invincible 1] }

/-- C5 (witness): attacking the single-Invincible target rejects the
attack and removes the effect, and the follow-up attack decrements
the target's defense by 1 like a normal attack. -/
theorem invincible_consumption_witness :
    get_active_effect singleInvincibleChar Effect.isInvincible =
      some (Effect.invincible 1) ∧
    (basic_attack baseChar singleInvincibleChar 50).2.2 = Log.rejected ∧
    (basic_attack { baseChar with speed_points := baseChar.speed_points - 1 }
       { singleInvincibleChar with active_effects :=
           singleInvincibleChar.active_effects.eraseP Effect.isInvincible }
       50).2.1.defense_points = singleInvincibleChar.defense_points - 1 :=
  ⟨by decide,
   by rw [(invincible_consumption baseChar singleInvincibleChar 50 50
       (by decide)).1],
   ((invincible_consumption baseChar singleInvincibleChar 50 50 (by decide)).2
      (by decide) (by decide)).1⟩

/-! ### C10: Invincible takes precedence over ReflectiveShield -/

/-- Consuming the first Invincible effect leaves every
ReflectiveShield effect in the list untouched. -/
theorem decrementFirst_filter_reflective (p : Int → Bool) (l : List Effect) :
    (decrementFirst Effect.isInvincible p l).filter Effect.isReflective =
      l.filter Effect.isReflective := by
  induction l with
  | nil => rfl
  | cons e rest ih =>
    cases e with
    | invincible n =>
      simp only [decrementFirst, Effect.isInvincible, if_true]
      split <;> simp [Effect.isReflective]
    | reflectiveShield n =>
      simp [decrementFirst, Effect.isInvincible, Effect.isReflective, ih]

/-- C10: on a target holding both an Invincible and a
ReflectiveShield effect, a basic attack is rejected, consumes only
the Invincible effect (the ReflectiveShield effects are preserved
with their use counts), and reflects no damage onto the attacker. -/
theorem invincible_shadows_reflective (attacker target : CharState)
    (roll : Int) (einv erefl : Effect)
    (hinv : get_active_effect target Effect.isInvincible = some einv)
    (hrefl : get_active_effect target Effect.isReflective = some erefl) :
    (basic_attack attacker target roll).2.2 = Log.rejected ∧
    (basic_attack attacker target roll).1.health_points =
      attacker.health_points ∧
    (basic_attack attacker target roll).1.defense_points =
      attacker.defense_points ∧
    (basic_attack attacker target roll).2.1.health_points =
      target.health_points ∧
    (basic_attack attacker target roll).2.1.defense_points =
      target.defense_points ∧
    (basic_attack attacker target roll).2.1.active_effects.filter
        Effect.isReflective =
      target.active_effects.filter Effect.isReflective := by
  unfold basic_attack
  rw [hinv]
  simp [decrementFirst_filter_reflective]

/-- A target holding both an Invincible and a ReflectiveShield
effect. -/
def dualEffectChar : CharState :=
  { baseChar with
    active_effects := [Effect.invincible 1, Effect.reflectiveShield 1] }

/-- C10 (witness): attacking a target with both effects rejects the
attack, keeps the ReflectiveShield with its use count, and leaves the
attacker's health untouched. -/
theorem invincible_shadows_reflective_witness :
    get_active_effect dualEffectChar Effect.isInvincible =
      some (Effect.invincible 1) ∧
    get_active_effect dualEffectChar Effect.isReflective =
      some (Effect.reflectiveShield 1) ∧
    (basic_attack baseChar dualEffectChar 50).2.2 = Log.rejected ∧
    (basic_attack baseChar dualEffectChar 50).1.health_points =
      baseChar.health_points ∧
    (basic_attack baseChar dualEffectChar 50).2.1.active_effects.filter
        Effect.isReflective =
      dualEffectChar.active_effects.filter Effect.isReflective :=
  ⟨by decide, by decide,
   (invincible_shadows_reflective baseChar dualEffectChar 50
     (Effect.invincible 1) (Effect.reflectiveShield 1)
     (by decide) (by decide)).1,
   (invincible_shadows_reflective baseChar dualEffectChar 50
     (Effect.invincible 1) (Effect.reflectiveShield 1)
     (by decide) (by decide)).2.1,
   (invincible_shadows_reflective baseChar dualEffectChar 50
     (Effect.invincible 1) (Effect.reflectiveShield 1)
     (by decide) (by decide)).2.2.2.2.2⟩

/-! ### C2: use_skill with a missing target -/

/-- A skill that requires a target, costing 1 speed point. -/
def targetedSkill : Skill :=
  { magic_points_cost := 0, speed_points_cost := 1, require_target := true }

/-- A caster with a single target-requiring skill and enough points
to pay its cost. -/
def targetSkillChar : CharState :=
  { baseChar with skills := [targetedSkill] }

/-- C2 (counterexample): calling `use_skill` on a target-requiring
skill without a target does report the missing-target error and skip
the skill effect, but the caster's state is not left unchanged: the
speed cost has already been deducted when the error is reported. -/
theorem use_skill_missing_target_cex :
    (use_skill targetSkillChar 0 false).2 = UseSkillResult.missingTarget ∧
    (use_skill targetSkillChar 0 false).1.speed_points ≠
      targetSkillChar.speed_points := by
  decide

/-- C2 (amended): for every caster and valid index of a
target-requiring skill, calling `use_skill` without a target reports
the missing-target error and aborts before invoking the skill effect,
but only after the speed and magic costs have been deducted from the
caster (when the cost check fails instead, the cost failure is
reported and the caster is unchanged). -/
theorem use_skill_missing_target (c : CharState) (i : Nat) (skill : Skill)
    (hi : c.skills.get? i = some skill)
    (hreq : skill.require_target = true) :
    ((check_skill_cost c skill).1 = true →
      use_skill c (i : Int) false =
        ({ c with
            speed_points := c.speed_points - skill.speed_points_cost
            magic_points := c.magic_points - skill.magic_points_cost },
         UseSkillResult.missingTarget)) ∧
    ((check_skill_cost c skill).1 = false →
      use_skill c (i : Int) false =
        (c, UseSkillResult.costFailure (check_skill_cost c skill).2)) := by
  have hilen : i < c.skills.length := by
    rcases List.get?_eq_some.mp hi with ⟨h, _⟩
    exact h
  have hlen : ¬ ((c.skills.length : Int) ≤ (i : Int)) := by
    omega
  have hpy : pyGet c.skills (i : Int) = some skill := by
    unfold pyGet
    rw [if_pos (Int.natCast_nonneg i), Int.toNat_natCast]
    exact hi
  constructor <;> intro hav <;>
    simp [use_skill, hlen, hpy, hav, hreq]

/-- C2 (witness): the cost check passes for the concrete caster, and
`use_skill` deducts 1 speed point and 0 magic points before reporting
the missing target. -/
theorem use_skill_missing_target_witness :
    targetSkillChar.skills.get? 0 = some targetedSkill ∧
    targetedSkill.require_target = true ∧
    (check_skill_cost targetSkillChar targetedSkill).1 = true ∧
    use_skill targetSkillChar 0 false =
      ({ targetSkillChar with
          speed_points := targetSkillChar.speed_points -
            targetedSkill.speed_points_cost
          magic_points := targetSkillChar.magic_points -
            targetedSkill.magic_points_cost },
       UseSkillResult.missingTarget) :=
  ⟨rfl, rfl, by decide,
    (use_skill_missing_target targetSkillChar 0 targetedSkill rfl rfl).1
      (by decide)⟩

/-! ### C9: use_skill with an invalid index -/

/-- A skill that needs no target, costing 1 speed point. -/
def plainSkill : Skill :=
  { magic_points_cost := 0, speed_points_cost := 1, require_target := false }

/-- A caster with a single targetless skill. -/
def plainSkillChar : CharState :=
  { baseChar with skills := [plainSkill] }

/-- C9 (counterexample): index `-1` is not a valid position in the
one-element skills list (the valid position is 0), yet `use_skill`
does not report the out-of-range error: per Python list semantics it
selects the last skill, deducts its speed cost and dispatches it. -/
theorem use_skill_negative_index_cex :
    (use_skill plainSkillChar (-1) false).2 ≠ UseSkillResult.outOfRange ∧
    (use_skill plainSkillChar (-1) false).2 =
      UseSkillResult.dispatched false ∧
    (use_skill plainSkillChar (-1) false).1.speed_points ≠
      plainSkillChar.speed_points := by
  decide

/-- C9 (amended): for every skill index greater than or equal to the
length of the caster's skills list, `use_skill` reports the
out-of-range error, aborts the action, and leaves the caster
(including all stats) unchanged; negative indices are not rejected by
this guard — they index from the end of the list per Python
semantics, and an index below minus the length raises an uncaught
IndexError. -/
theorem use_skill_out_of_range (c : CharState) (i : Int) (tg : Bool)
    (hi : (c.skills.length : Int) ≤ i) :
    use_skill c i tg = (c, UseSkillResult.outOfRange) := by
  simp [use_skill, hi]

/-- C9 (witness): index 3 on a one-skill caster is rejected with the
caster returned unchanged. -/
theorem use_skill_out_of_range_witness :
    ((plainSkillChar.skills.length : Int) ≤ 3) ∧
    use_skill plainSkillChar 3 false =
      (plainSkillChar, UseSkillResult.outOfRange) :=
  ⟨by decide, use_skill_out_of_range plainSkillChar 3 false (by decide)⟩

end CombatGame
